import Mathlib

/-!
Shallow embedding of `homework.py`, a Telegram bot that polls a homework-review
API and notifies a chat when the status of the most recent homework changes.

Python values that can occur in a parsed JSON response (and in the loop-local
variables of `main`) are modelled by `JValue`; Python exceptions raised by the
program are modelled by `PyErr`; the HTTP transport and the Telegram delivery
channel are external collaborators and are abstracted as inputs (`HttpResult`,
and a `deliver` function).  Logging other than the two log lines emitted by
`send_message` is a pure side effect with no influence on control flow and is
not modelled.
-/

set_option autoImplicit false

namespace Homework

/-- A Python value as it can appear in a parsed JSON response: `None`, a
string, an integer, a list, or a string-keyed dict (association list, first
binding wins, as CPython lookup does for the dicts built by `json.loads`). -/
inductive JValue where
  | jnull
  | jstr (s : String)
  | jint (n : Int)
  | jlist (xs : List JValue)
  | jdict (kvs : List (String × JValue))

mutual
/-- Structural (Python `==`) equality test on values. -/
def JValue.beq : JValue → JValue → Bool
  | .jnull, .jnull => true
  | .jstr a, .jstr b => a == b
  | .jint a, .jint b => a == b
  | .jlist xs, .jlist ys => JValue.beqList xs ys
  | .jdict xs, .jdict ys => JValue.beqPairs xs ys
  | _, _ => false

/-- Pointwise equality test on lists of values. -/
def JValue.beqList : List JValue → List JValue → Bool
  | [], [] => true
  | x :: xs, y :: ys => JValue.beq x y && JValue.beqList xs ys
  | _, _ => false

/-- Pointwise equality test on dict bodies. -/
def JValue.beqPairs : List (String × JValue) → List (String × JValue) → Bool
  | [], [] => true
  | (k, v) :: xs, (l, w) :: ys => k == l && JValue.beq v w && JValue.beqPairs xs ys
  | _, _ => false
end

mutual
theorem JValue.beq_refl : ∀ a : JValue, JValue.beq a a = true
  | .jnull => rfl
  | .jstr a => by simp [JValue.beq]
  | .jint a => by simp [JValue.beq]
  | .jlist xs => by simpa [JValue.beq] using JValue.beqList_refl xs
  | .jdict xs => by simpa [JValue.beq] using JValue.beqPairs_refl xs

theorem JValue.beqList_refl : ∀ xs : List JValue, JValue.beqList xs xs = true
  | [] => rfl
  | x :: xs => by
      simpa [JValue.beqList, JValue.beq_refl x] using JValue.beqList_refl xs

theorem JValue.beqPairs_refl : ∀ xs : List (String × JValue), JValue.beqPairs xs xs = true
  | [] => rfl
  | (k, v) :: xs => by
      simpa [JValue.beqPairs, JValue.beq_refl v] using JValue.beqPairs_refl xs
end

mutual
theorem JValue.beq_sound : ∀ a b : JValue, JValue.beq a b = true → a = b
  | .jnull, .jnull, _ => rfl
  | .jstr a, .jstr b, h => by simp [JValue.beq] at h; rw [h]
  | .jint a, .jint b, h => by simp [JValue.beq] at h; rw [h]
  | .jlist xs, .jlist ys, h => by
      rw [JValue.beqList_sound xs ys (by simpa [JValue.beq] using h)]
  | .jdict xs, .jdict ys, h => by
      rw [JValue.beqPairs_sound xs ys (by simpa [JValue.beq] using h)]
  | .jnull, .jstr _, h => by simp [JValue.beq] at h
  | .jnull, .jint _, h => by simp [JValue.beq] at h
  | .jnull, .jlist _, h => by simp [JValue.beq] at h
  | .jnull, .jdict _, h => by simp [JValue.beq] at h
  | .jstr _, .jnull, h => by simp [JValue.beq] at h
  | .jstr _, .jint _, h => by simp [JValue.beq] at h
  | .jstr _, .jlist _, h => by simp [JValue.beq] at h
  | .jstr _, .jdict _, h => by simp [JValue.beq] at h
  | .jint _, .jnull, h => by simp [JValue.beq] at h
  | .jint _, .jstr _, h => by simp [JValue.beq] at h
  | .jint _, .jlist _, h => by simp [JValue.beq] at h
  | .jint _, .jdict _, h => by simp [JValue.beq] at h
  | .jlist _, .jnull, h => by simp [JValue.beq] at h
  | .jlist _, .jstr _, h => by simp [JValue.beq] at h
  | .jlist _, .jint _, h => by simp [JValue.beq] at h
  | .jlist _, .jdict _, h => by simp [JValue.beq] at h
  | .jdict _, .jnull, h => by simp [JValue.beq] at h
  | .jdict _, .jstr _, h => by simp [JValue.beq] at h
  | .jdict _, .jint _, h => by simp [JValue.beq] at h
  | .jdict _, .jlist _, h => by simp [JValue.beq] at h

theorem JValue.beqList_sound : ∀ xs ys : List JValue, JValue.beqList xs ys = true → xs = ys
  | [], [], _ => rfl
  | [], _ :: _, h => by simp [JValue.beqList] at h
  | _ :: _, [], h => by simp [JValue.beqList] at h
  | x :: xs, y :: ys, h => by
      have h' := h
      simp only [JValue.beqList, Bool.and_eq_true] at h'
      rw [JValue.beq_sound x y h'.1, JValue.beqList_sound xs ys h'.2]

theorem JValue.beqPairs_sound :
    ∀ xs ys : List (String × JValue), JValue.beqPairs xs ys = true → xs = ys
  | [], [], _ => rfl
  | [], _ :: _, h => by simp [JValue.beqPairs] at h
  | _ :: _, [], h => by simp [JValue.beqPairs] at h
  | (k, v) :: xs, (l, w) :: ys, h => by
      have h' := h
      simp only [JValue.beqPairs, Bool.and_eq_true] at h'
      rw [eq_of_beq h'.1.1, JValue.beq_sound v w h'.1.2, JValue.beqPairs_sound xs ys h'.2]
end

instance : DecidableEq JValue := fun a b =>
  if h : JValue.beq a b = true then
    isTrue (JValue.beq_sound a b h)
  else
    isFalse (fun he => h (he ▸ JValue.beq_refl a))

/-- Lookup in a dict body, first binding wins (models `d[k]` / `k in d`). -/
def dlookup (kvs : List (String × JValue)) (k : String) : Option JValue :=
  match kvs with
  | [] => none
  | (k', v) :: rest => if k' = k then some v else dlookup rest k

/-- Lookup in a string-to-string table (models `d[k]` on `HOMEWORK_VERDICTS`). -/
def slookup (kvs : List (String × String)) (k : String) : Option String :=
  match kvs with
  | [] => none
  | (k', v) :: rest => if k' = k then some v else slookup rest k

/-- The single-quote character, written by code point to keep it out of
string literals. -/
def sq : Char := Char.ofNat 39

/-- The double-quote character. -/
def dq : Char := Char.ofNat 34

/-- The backslash character. -/
def bslash : Char := Char.ofNat 92

/-- Backslash-escape every single quote in a character list. -/
def escSq : List Char → List Char
  | [] => []
  | c :: cs => if c = sq then bslash :: c :: escSq cs else c :: escSq cs

/-- Python `repr` of a string: single-quoted by default, double-quoted when
the text holds a single quote but no double quote, otherwise single-quoted
with the single quotes backslash-escaped.  (Escaping of backslashes and
control characters, which never occur in this program's messages, is not
modelled.) -/
def pyReprStr (s : String) : String :=
  if s.data.contains sq && !(s.data.contains dq) then
    String.singleton dq ++ s ++ String.singleton dq
  else if s.data.contains sq then
    String.singleton sq ++ String.mk (escSq s.data) ++ String.singleton sq
  else
    String.singleton sq ++ s ++ String.singleton sq

/-- Python type name of a value, as `type(v)` prints it inside `<class ...>`. -/
def pytypename : JValue → String
  | .jnull => "NoneType"
  | .jstr _ => "str"
  | .jint _ => "int"
  | .jlist _ => "list"
  | .jdict _ => "dict"

/-- Python `str(type(v))`, e.g. `<class 'dict'>`. -/
def pytype (v : JValue) : String :=
  "<class " ++ pyReprStr (pytypename v) ++ ">"

mutual
/-- Python `repr` of a value. -/
def pyrepr : JValue → String
  | .jnull => "None"
  | .jstr s => pyReprStr s
  | .jint n => toString n
  | .jlist xs => "[" ++ pyreprItems xs ++ "]"
  | .jdict kvs => "\x7b" ++ pyreprPairs kvs ++ "\x7d"

/-- Comma-separated `repr`s of list items. -/
def pyreprItems : List JValue → String
  | [] => ""
  | [x] => pyrepr x
  | x :: y :: rest => pyrepr x ++ ", " ++ pyreprItems (y :: rest)

/-- Comma-separated `repr`s of dict pairs. -/
def pyreprPairs : List (String × JValue) → String
  | [] => ""
  | [(k, v)] => pyReprStr k ++ ": " ++ pyrepr v
  | (k, v) :: p :: rest => pyReprStr k ++ ": " ++ pyrepr v ++ ", " ++ pyreprPairs (p :: rest)
end

/-- Python `str(v)` as used by f-string interpolation: a string prints as
itself, everything else by its `repr`. -/
def pystr : JValue → String
  | .jstr s => s
  | v => pyrepr v

/-- A raised Python exception, tagged with its class.  `str()` of a
`KeyError` shows the `repr` of its argument; for the other classes used by
this program it shows the message itself. -/
inductive PyErr where
  | pyException (msg : String)
  | pyTypeError (msg : String)
  | pyKeyError (msg : String)
  | pyAttributeError (msg : String)
  | pyIndexError (msg : String)
deriving DecidableEq

/-- Python `str(error)` as used by the f-strings of `main` and
`send_message`. -/
def pyErrStr : PyErr → String
  | .pyException m => m
  | .pyTypeError m => m
  | .pyKeyError m => pyReprStr m
  | .pyAttributeError m => m
  | .pyIndexError m => m

instance (priority := low) {α : Type} [DecidableEq α] : DecidableEq (Except PyErr α) :=
  fun a b =>
    match a, b with
    | .ok x, .ok y => decidable_of_iff (x = y) (by simp)
    | .error x, .error y => decidable_of_iff (x = y) (by simp)
    | .ok _, .error _ => isFalse (fun h => Except.noConfusion h)
    | .error _, .ok _ => isFalse (fun h => Except.noConfusion h)

/-- Python truthiness of a value (`if homeworks:`). -/
def truthy : JValue → Bool
  | .jnull => false
  | .jstr s => !s.isEmpty
  | .jint n => n != 0
  | .jlist xs => !xs.isEmpty
  | .jdict kvs => !kvs.isEmpty

/-- Models the method call `v.get(k)`: on a dict it returns the value, or
`None` when the key is absent; on anything else Python raises
`AttributeError`. -/
def dotGet (v : JValue) (k : String) : Except PyErr JValue :=
  match v with
  | .jdict kvs => .ok ((dlookup kvs k).getD .jnull)
  | other =>
      .error (.pyAttributeError
        (pyReprStr (pytypename other) ++ " object has no attribute " ++ pyReprStr "get"))

/-- Models the subscript `v[0]`: the head of a non-empty list, `IndexError`
on an empty list, `TypeError` otherwise.  (In `main` the subscripted value
always came out of `check_response`, hence is a list.) -/
def jindex0 : JValue → Except PyErr JValue
  | .jlist (x :: _) => .ok x
  | .jlist [] => .error (.pyIndexError "list index out of range")
  | v => .error (.pyTypeError (pyReprStr (pytypename v) ++ " object is not subscriptable"))

/-- The constant `HOMEWORK_VERDICTS` of `homework.py`. -/
def HOMEWORK_VERDICTS : List (String × String) :=
  [("approved", "Работа проверена: ревьюеру всё понравилось. Ура!"),
   ("reviewing", "Работа взята на проверку ревьюером."),
   ("rejected", "Работа проверена: у ревьюера есть замечания.")]

/-- The constant `ENDPOINT` of `homework.py`. -/
def ENDPOINT : String := "https://practicum.yandex.ru/api/user_api/homework_statuses/"

/-- The constant `RETRY_PERIOD` of `homework.py` (seconds between cycles). -/
def RETRY_PERIOD : Nat := 600

/-- The membership test `status in HOMEWORK_VERDICTS` together with the
lookup `HOMEWORK_VERDICTS.get(status)`: a dict key can only match when the
tested value is a string equal to one of the keys. -/
def verdictFor : JValue → Option String
  | .jstr s => slookup HOMEWORK_VERDICTS s
  | _ => none

/-- Embedding of `check_response` (`homework.py` lines 86-98): reject a
`None` response, a non-dict response, a response missing one of the keys
`homeworks` / `current_date`, and a non-list `homeworks` value, in that
order; otherwise return the `homeworks` list. -/
def check_response (response : JValue) : Except PyErr JValue :=
  if response = .jnull then
    .error (.pyException "Ответ не получен")
  else
    match response with
    | .jdict kvs =>
        if (dlookup kvs "homeworks").isNone || (dlookup kvs "current_date").isNone then
          .error (.pyKeyError "Отсутствуют ключи \x27homeworks,current_date\x27 в ответе")
        else
          match (dlookup kvs "homeworks").getD .jnull with
          | .jlist xs => .ok (.jlist xs)
          | other => .error (.pyTypeError ("Ожидается список, получен " ++ pytype other))
    | other => .error (.pyTypeError ("Ожидается словарь, получен " ++ pytype other))

/-- Embedding of `parse_status` (`homework.py` lines 101-116): require the
keys `status` and `homework_name`, require the status to be a key of
`HOMEWORK_VERDICTS`, and return the formatted notification text. -/
def parse_status (homework : JValue) : Except PyErr String :=
  match homework with
  | .jdict kvs =>
      if (dlookup kvs "status").isNone then
        .error (.pyKeyError "Нет такого ключа \x22status\x22")
      else
        let status := (dlookup kvs "status").getD .jnull
        if (dlookup kvs "homework_name").isNone then
          .error (.pyKeyError "Нет такого ключа \x22homework_name\x22")
        else
          let homework_name := (dlookup kvs "homework_name").getD .jnull
          match verdictFor status with
          | none => .error (.pyException ("Неожиданный статус - " ++ pystr status))
          | some verdict =>
              .ok ("Изменился статус проверки работы \x22" ++ pystr homework_name
                    ++ "\x22. " ++ verdict)
  | other =>
      .error (.pyTypeError ("argument of type " ++ pyReprStr (pytypename other)
        ++ " is not iterable"))

/-- Outcome of the one HTTP GET issued by `get_api_answer`, abstracting the
`requests` transport: a 200 response whose body parsed as JSON to `body`, a
response with a non-200 status code, a 200 response whose body failed to
parse as JSON (`response.json()` raises, uncaught, in the `else` clause), or
a transport-level fault raised by `requests.get` itself. -/
inductive HttpResult where
  | ok (body : JValue)
  | badStatus (code : Nat) (text : String)
  | badJson (error : String)
  | transportFail (error : String)

/-- Embedding of `get_api_answer` (`homework.py` lines 59-83): send the
cursor as the `from_date` query parameter; raise on a non-200 status code
(the `raise Exception(error)` re-wrap keeps the same message text) and on
transport faults; otherwise return the parsed JSON body.  The `timestamp`
argument only feeds the query string, so the server's reaction to it is
already folded into `http`. -/
def get_api_answer (timestamp : JValue) (http : HttpResult) : Except PyErr JValue :=
  match http with
  | .ok body => .ok body
  | .badStatus code text =>
      .error (.pyException ("Эндпоинт " ++ ENDPOINT ++ " недоступен. Код ответа API: "
        ++ toString code ++ ".Ошибка: " ++ text))
  | .badJson error => .error (.pyException error)
  | .transportFail error => .error (.pyException error)

/-- Embedding of `send_message` (`homework.py` lines 37-44).  The Telegram
transport is abstracted as `deliver`; the returned list is the log lines the
call emits (level, text).  Delivery failure is caught inside the function:
the result is always a normal return, never an exception. -/
def send_message (deliver : String → Except String Unit) (message : String) :
    List (String × String) :=
  match deliver message with
  | .ok _ => [("DEBUG", "Бот отправил сообщение: " ++ message)]
  | .error error => [("ERROR", "Сбой в отправке сообщения с ошибкой " ++ error)]

/-- The three environment variables read at module load
(`PRACTICUM_TOKEN`, `TELEGRAM_TOKEN`, `CHAT_ID`); `none` models an unset
variable (`os.getenv` returns `None`). -/
structure Env where
  PRACTICUM_TOKEN : Option String
  TELEGRAM_TOKEN : Option String
  TELEGRAM_CHAT_ID : Option String

/-- Helper for `check_tokens`: walk the tuple of checked values; at the
first `None` found, log critically and exit (the f-string interpolates the
checked value itself, which is `None` at that point). -/
def checkTokensGo : List (Option String) → Bool × List (String × String)
  | [] => (false, [])
  | none :: _ =>
      (true, [("CRITICAL", "Отсутствует обязательная переменная окружения None."
        ++ "Программа принудительно остановлена.")])
  | some _ :: rest => checkTokensGo rest

/-- Embedding of `check_tokens` (`homework.py` lines 47-56).  Returns
whether the process exits, together with the log lines emitted.  The source
iterates over the tuple `(TELEGRAM_CHAT_ID, PRACTICUM_TOKEN,
TELEGRAM_CHAT_ID)` — `TELEGRAM_CHAT_ID` twice, `TELEGRAM_TOKEN` never — and
only tests `is None`, so a set-but-empty variable passes. -/
def check_tokens (env : Env) : Bool × List (String × String) :=
  checkTokensGo [env.TELEGRAM_CHAT_ID, env.PRACTICUM_TOKEN, env.TELEGRAM_CHAT_ID]

/-- The two loop-local variables of `main`: the poll cursor `timestamp` and
`old_status`, the last notified status. -/
structure LoopState where
  timestamp : JValue
  old_status : JValue
deriving DecidableEq

/-- Observable outcome of one iteration of the `while True` loop of `main`:
the loop state carried to the next iteration, the messages passed to
`send_message` (the Notifier invocations), and the log lines emitted by
those `send_message` calls. -/
structure CycleOut where
  state : LoopState
  sent : List String
  logs : List (String × String)
deriving DecidableEq

/-- The failure report built in the `except` clause of `main`:
`f'Сбой в работе программы: \x7berror\x7d'`. -/
def failText (e : PyErr) : String :=
  "Сбой в работе программы: " ++ pyErrStr e

/-- The `except` branch of `main`: state unchanged, the failure report sent. -/
def reportFailure (deliver : String → Except String Unit) (st : LoopState) (e : PyErr) :
    CycleOut :=
  ⟨st, [failText e], send_message deliver (failText e)⟩

/-- Embedding of one iteration of the `while True` loop of `main`
(`homework.py` lines 125-141).  Any exception raised in the `try` block
jumps to the `except` branch (`reportFailure`) with the loop variables as
they were at the raise point; `time.sleep` has no observable effect and is
omitted. -/
def pollCycle (deliver : String → Except String Unit) (http : HttpResult)
    (st : LoopState) : CycleOut :=
  match get_api_answer st.timestamp http with
  | .error e => reportFailure deliver st e
  | .ok response =>
    match check_response response with
    | .error e => reportFailure deliver st e
    | .ok homeworks =>
      if truthy homeworks then
        match jindex0 homeworks with
        | .error e => reportFailure deliver st e
        | .ok hw0 =>
          match dotGet hw0 "status" with
          | .error e => reportFailure deliver st e
          | .ok new_status =>
            if new_status ≠ st.old_status then
              match parse_status hw0 with
              | .error e => reportFailure deliver st e
              | .ok message =>
                match dotGet response "current_date" with
                | .error e =>
                    ⟨⟨st.timestamp, new_status⟩, [message, failText e],
                      send_message deliver message ++ send_message deliver (failText e)⟩
                | .ok ts => ⟨⟨ts, new_status⟩, [message], send_message deliver message⟩
            else
              match dotGet response "current_date" with
              | .error e => reportFailure deliver st e
              | .ok ts => ⟨⟨ts, st.old_status⟩, [], []⟩
      else
        match dotGet response "current_date" with
        | .error e => reportFailure deliver st e
        | .ok ts => ⟨⟨ts, st.old_status⟩, [], []⟩

/-- The loop state `main` starts with: `timestamp = int(time.time())`,
`old_status = ''`. -/
def initState (now : Int) : LoopState :=
  ⟨.jint now, .jstr ""⟩

/-- A response that is a dict with a `homeworks` list and a `current_date`,
as a reusable hypothesis bundle for the cycle lemmas. -/
def validResponse (kvs : List (String × JValue)) : Prop :=
  (∃ xs, dlookup kvs "homeworks" = some (.jlist xs)) ∧ (dlookup kvs "current_date").isSome

theorem poll_api_err (deliver : String → Except String Unit) (http : HttpResult)
    (st : LoopState) (e : PyErr) (h : get_api_answer st.timestamp http = .error e) :
    pollCycle deliver http st = ⟨st, [failText e], send_message deliver (failText e)⟩ := by
  simp [pollCycle, h, reportFailure]

theorem poll_check_err (deliver : String → Except String Unit) (body : JValue)
    (st : LoopState) (e : PyErr) (h : check_response body = .error e) :
    pollCycle deliver (.ok body) st = ⟨st, [failText e], send_message deliver (failText e)⟩ := by
  simp [pollCycle, get_api_answer, h, reportFailure]

theorem poll_parse_err (deliver : String → Except String Unit) (body hw0 : JValue)
    (tl : List JValue) (st : LoopState) (ns : JValue) (e : PyErr)
    (hchk : check_response body = .ok (.jlist (hw0 :: tl)))
    (hst : dotGet hw0 "status" = .ok ns)
    (hne : ns ≠ st.old_status)
    (hp : parse_status hw0 = .error e) :
    pollCycle deliver (.ok body) st = ⟨st, [failText e], send_message deliver (failText e)⟩ := by
  simp [pollCycle, get_api_answer, hchk, truthy, jindex0, hst, hne, hp, reportFailure]

theorem poll_changed (deliver : String → Except String Unit) (st : LoopState)
    (kvs hkvs : List (String × JValue)) (rest : List JValue) (cd : JValue)
    (s name v : String)
    (hhw : dlookup kvs "homeworks" = some (.jlist (.jdict hkvs :: rest)))
    (hcd : dlookup kvs "current_date" = some cd)
    (hs : dlookup hkvs "status" = some (.jstr s))
    (hn : dlookup hkvs "homework_name" = some (.jstr name))
    (hv : slookup HOMEWORK_VERDICTS s = some v)
    (hne : JValue.jstr s ≠ st.old_status) :
    pollCycle deliver (.ok (.jdict kvs)) st
      = ⟨⟨cd, .jstr s⟩,
         ["Изменился статус проверки работы \x22" ++ name ++ "\x22. " ++ v],
         send_message deliver
           ("Изменился статус проверки работы \x22" ++ name ++ "\x22. " ++ v)⟩ := by
  simp [pollCycle, get_api_answer, check_response, hhw, hcd, truthy, jindex0, dotGet,
    hs, hn, hne, parse_status, verdictFor, hv, pystr]

theorem poll_same (deliver : String → Except String Unit) (st : LoopState)
    (kvs hkvs : List (String × JValue)) (rest : List JValue) (cd : JValue)
    (hhw : dlookup kvs "homeworks" = some (.jlist (.jdict hkvs :: rest)))
    (hcd : dlookup kvs "current_date" = some cd)
    (hs : dlookup hkvs "status" = some st.old_status) :
    pollCycle deliver (.ok (.jdict kvs)) st = ⟨⟨cd, st.old_status⟩, [], []⟩ := by
  simp [pollCycle, get_api_answer, check_response, hhw, hcd, truthy, jindex0, dotGet, hs]

/-- Invariant on the loop state: `old_status` is the initial empty string or
a key of `HOMEWORK_VERDICTS`. -/
def statusInv (st : LoopState) : Prop :=
  st.old_status = .jstr ""
  ∨ ∃ s, st.old_status = .jstr s ∧ (slookup HOMEWORK_VERDICTS s).isSome = true

theorem parse_ok_gives_verdict (hw ns : JValue) (msg : String)
    (hp : parse_status hw = .ok msg) (hg : dotGet hw "status" = .ok ns) :
    ∃ s, ns = .jstr s ∧ (slookup HOMEWORK_VERDICTS s).isSome = true := by
  cases hw with
  | jdict kvs =>
      have hns : ns = (dlookup kvs "status").getD .jnull := by
        simpa [dotGet] using hg.symm
      simp only [parse_status] at hp
      split at hp
      · exact absurd hp (by simp)
      · split at hp
        · exact absurd hp (by simp)
        · split at hp
          · exact absurd hp (by simp)
          · rename_i v hv
            rw [hns]
            cases hstv : (dlookup kvs "status").getD .jnull with
            | jstr s =>
                refine ⟨s, rfl, ?_⟩
                rw [hstv] at hv
                simp [verdictFor] at hv
                simp [hv]
            | jnull => rw [hstv] at hv; simp [verdictFor] at hv
            | jint n => rw [hstv] at hv; simp [verdictFor] at hv
            | jlist xs => rw [hstv] at hv; simp [verdictFor] at hv
            | jdict kk => rw [hstv] at hv; simp [verdictFor] at hv
  | jnull => simp [parse_status] at hp
  | jstr s => simp [parse_status] at hp
  | jint n => simp [parse_status] at hp
  | jlist xs => simp [parse_status] at hp

/-- C1: for every valid response (a dict holding a non-empty `homeworks`
list and a `current_date`) whose first homework is a record with a
`homework_name` and a `status` that is a verdict key differing from the
last notified status, one poll cycle passes exactly the Status Parser's
formatted message to the Notifier and sets `old_status` to the new status —
for every delivery outcome `deliver`, since `send_message` swallows delivery
failures. -/
theorem C1_changed_status_notifies_once
    (deliver : String → Except String Unit) (st : LoopState)
    (kvs hkvs : List (String × JValue)) (rest : List JValue) (cd : JValue)
    (s name v : String)
    (hhw : dlookup kvs "homeworks" = some (.jlist (.jdict hkvs :: rest)))
    (hcd : dlookup kvs "current_date" = some cd)
    (hs : dlookup hkvs "status" = some (.jstr s))
    (hn : dlookup hkvs "homework_name" = some (.jstr name))
    (hv : slookup HOMEWORK_VERDICTS s = some v)
    (hne : JValue.jstr s ≠ st.old_status) :
    pollCycle deliver (.ok (.jdict kvs)) st
      = ⟨⟨cd, .jstr s⟩,
         ["Изменился статус проверки работы \x22" ++ name ++ "\x22. " ++ v],
         send_message deliver
           ("Изменился статус проверки работы \x22" ++ name ++ "\x22. " ++ v)⟩ :=
  poll_changed deliver st kvs hkvs rest cd s name v hhw hcd hs hn hv hne

/-- C1 witness: concrete changed-status cycle in which delivery fails; the
notification is still the only one issued and `old_status` still updates. -/
theorem C1_witness :
    pollCycle (fun _ => .error "network down")
      (.ok (.jdict
        [("homeworks", .jlist [.jdict
            [("status", .jstr "approved"), ("homework_name", .jstr "hw2")]]),
         ("current_date", .jint 42)]))
      ⟨.jint 7, .jstr "reviewing"⟩
      = ⟨⟨.jint 42, .jstr "approved"⟩,
         ["Изменился статус проверки работы \x22hw2\x22. "
           ++ "Работа проверена: ревьюеру всё понравилось. Ура!"],
         [("ERROR", "Сбой в отправке сообщения с ошибкой network down")]⟩ :=
  C1_changed_status_notifies_once (fun _ => .error "network down")
    ⟨.jint 7, .jstr "reviewing"⟩ _ _ _ _ "approved" "hw2" _
    rfl rfl rfl rfl rfl (by decide)

/-- C3: whenever the API Client raises, the Response Validator raises, or
the Status Parser raises on the inspected first homework, the cycle leaves
the whole loop state (cursor and `old_status`) at its pre-cycle value and
the only Notifier invocation is the failure report
`Сбой в работе программы: <error>`. -/
theorem C3_stage_failure_reported :
    (∀ (deliver : String → Except String Unit) (http : HttpResult) (st : LoopState) (e : PyErr),
        get_api_answer st.timestamp http = .error e →
        pollCycle deliver http st = ⟨st, [failText e], send_message deliver (failText e)⟩)
  ∧ (∀ (deliver : String → Except String Unit) (body : JValue) (st : LoopState) (e : PyErr),
        check_response body = .error e →
        pollCycle deliver (.ok body) st
          = ⟨st, [failText e], send_message deliver (failText e)⟩)
  ∧ (∀ (deliver : String → Except String Unit) (body hw0 : JValue) (tl : List JValue)
        (st : LoopState) (ns : JValue) (e : PyErr),
        check_response body = .ok (.jlist (hw0 :: tl)) →
        dotGet hw0 "status" = .ok ns →
        ns ≠ st.old_status →
        parse_status hw0 = .error e →
        pollCycle deliver (.ok body) st
          = ⟨st, [failText e], send_message deliver (failText e)⟩) :=
  ⟨fun d http st e h => poll_api_err d http st e h,
   fun d body st e h => poll_check_err d body st e h,
   fun d body hw0 tl st ns e h1 h2 h3 h4 => poll_parse_err d body hw0 tl st ns e h1 h2 h3 h4⟩

/-- C3 witness: a response missing the `homeworks` key is reported through
the Notifier (with the Python `str(KeyError)` rendering of the message) and
the cursor keeps its pre-cycle value 1000. -/
theorem C3_witness :
    pollCycle (fun _ => .ok ()) (.ok (.jdict [("current_date", .jint 5)]))
      ⟨.jint 1000, .jstr ""⟩
      = ⟨⟨.jint 1000, .jstr ""⟩,
         ["Сбой в работе программы: "
           ++ "\x22Отсутствуют ключи \x27homeworks,current_date\x27 в ответе\x22"],
         [("DEBUG", "Бот отправил сообщение: Сбой в работе программы: "
           ++ "\x22Отсутствуют ключи \x27homeworks,current_date\x27 в ответе\x22")]⟩ :=
  C3_stage_failure_reported.2.1 (fun _ => .ok ()) (.jdict [("current_date", .jint 5)])
    ⟨.jint 1000, .jstr ""⟩ (.pyKeyError "Отсутствуют ключи \x27homeworks,current_date\x27 в ответе")
    rfl

/-- C4: a valid response whose first homework's status equals `old_status`
issues no notification and still advances the cursor to `current_date`;
and repeating a cycle on any valid, parseable response issues no
notification the second time. -/
theorem C4_same_status_silent_and_idempotent :
    (∀ (deliver : String → Except String Unit) (st : LoopState)
        (kvs hkvs : List (String × JValue)) (rest : List JValue) (cd : JValue),
        dlookup kvs "homeworks" = some (.jlist (.jdict hkvs :: rest)) →
        dlookup kvs "current_date" = some cd →
        dlookup hkvs "status" = some st.old_status →
        pollCycle deliver (.ok (.jdict kvs)) st = ⟨⟨cd, st.old_status⟩, [], []⟩)
  ∧ (∀ (deliver : String → Except String Unit) (st : LoopState)
        (kvs hkvs : List (String × JValue)) (rest : List JValue) (cd : JValue)
        (s name v : String),
        dlookup kvs "homeworks" = some (.jlist (.jdict hkvs :: rest)) →
        dlookup kvs "current_date" = some cd →
        dlookup hkvs "status" = some (.jstr s) →
        dlookup hkvs "homework_name" = some (.jstr name) →
        slookup HOMEWORK_VERDICTS s = some v →
        (pollCycle deliver (.ok (.jdict kvs))
          (pollCycle deliver (.ok (.jdict kvs)) st).state).sent = []) := by
  have same := poll_same
  refine ⟨fun d st kvs hkvs rest cd h1 h2 h3 => same d st kvs hkvs rest cd h1 h2 h3, ?_⟩
  intro d st kvs hkvs rest cd s name v h1 h2 h3 h4 h5
  by_cases he : JValue.jstr s = st.old_status
  · rw [same d st kvs hkvs rest cd h1 h2 (he ▸ h3)]
    rw [same d ⟨cd, st.old_status⟩ kvs hkvs rest cd h1 h2 (he ▸ h3)]
  · rw [poll_changed d st kvs hkvs rest cd s name v h1 h2 h3 h4 h5 he]
    rw [same d ⟨cd, .jstr s⟩ kvs hkvs rest cd h1 h2 h3]

/-- C4 witness: repeating the spec's scenario response from the state it
produced (cursor 1600, `old_status` `reviewing`) issues no notification and
re-advances the cursor to 1600. -/
theorem C4_witness :
    pollCycle (fun _ => .ok ())
      (.ok (.jdict
        [("homeworks", .jlist [.jdict
            [("status", .jstr "reviewing"), ("homework_name", .jstr "hw1")]]),
         ("current_date", .jint 1600)]))
      ⟨.jint 1600, .jstr "reviewing"⟩
      = ⟨⟨.jint 1600, .jstr "reviewing"⟩, [], []⟩ :=
  C4_same_status_silent_and_idempotent.1 (fun _ => .ok ()) ⟨.jint 1600, .jstr "reviewing"⟩
    _ _ _ _ rfl rfl rfl

/-- C5: `check_response` rejects `None` (with the generic exception the spec
labels `EmptyResponse`), then any non-dict (`TypeError`), then a dict
missing `homeworks` or `current_date` (`KeyError`), then a non-list
`homeworks` value (`TypeError`), in that order, and otherwise returns the
`homeworks` list, which may be empty. -/
theorem C5_check_response_contract :
    (check_response .jnull = .error (.pyException "Ответ не получен"))
  ∧ (∀ v : JValue, v ≠ .jnull → (∀ kvs, v ≠ .jdict kvs) →
      check_response v = .error (.pyTypeError ("Ожидается словарь, получен " ++ pytype v)))
  ∧ (∀ kvs : List (String × JValue),
      ((dlookup kvs "homeworks").isNone ∨ (dlookup kvs "current_date").isNone) →
      check_response (.jdict kvs)
        = .error (.pyKeyError "Отсутствуют ключи \x27homeworks,current_date\x27 в ответе"))
  ∧ (∀ (kvs : List (String × JValue)) (v : JValue),
      dlookup kvs "homeworks" = some v → (dlookup kvs "current_date").isSome →
      (∀ xs, v ≠ .jlist xs) →
      check_response (.jdict kvs)
        = .error (.pyTypeError ("Ожидается список, получен " ++ pytype v)))
  ∧ (∀ (kvs : List (String × JValue)) (xs : List JValue),
      dlookup kvs "homeworks" = some (.jlist xs) → (dlookup kvs "current_date").isSome →
      check_response (.jdict kvs) = .ok (.jlist xs)) := by
  refine ⟨rfl, ?_, ?_, ?_, ?_⟩
  · intro v h1 h2
    cases v with
    | jnull => exact absurd rfl h1
    | jdict kvs => exact absurd rfl (h2 kvs)
    | jstr s => simp [check_response]
    | jint n => simp [check_response]
    | jlist xs => simp [check_response]
  · intro kvs h
    rcases h with h | h <;> simp [check_response, h]
  · intro kvs v h1 h2 h3
    obtain ⟨cd, hcd⟩ := Option.isSome_iff_exists.mp h2
    cases v with
    | jlist xs => exact absurd rfl (h3 xs)
    | jnull => simp [check_response, h1, hcd]
    | jstr s => simp [check_response, h1, hcd]
    | jint n => simp [check_response, h1, hcd]
    | jdict kk => simp [check_response, h1, hcd]
  · intro kvs xs h1 h2
    obtain ⟨cd, hcd⟩ := Option.isSome_iff_exists.mp h2
    simp [check_response, h1, hcd]

/-- C5 witness: a dict whose `homeworks` value is the integer 3 passes the
key check and is then rejected as a non-list with a `TypeError`. -/
theorem C5_witness :
    check_response (.jdict [("homeworks", .jint 3), ("current_date", .jint 5)])
      = .error (.pyTypeError "Ожидается список, получен <class \x27int\x27>") :=
  C5_check_response_contract.2.2.2.1 [("homeworks", .jint 3), ("current_date", .jint 5)]
    (.jint 3) rfl rfl (fun _ h => JValue.noConfusion h)

/-- C6: a homework record with `status` and `homework_name` keys whose
status is a string outside the verdict table makes `parse_status` raise the
generic exception the spec labels `UnknownStatus`, whose message names the
offending value; inside a cycle (when that status differs from
`old_status`) the failure is passed to the Notifier as the failure report,
not dropped. -/
theorem C6_unknown_status_reported :
    (∀ (hkvs : List (String × JValue)) (s : String) (hnv : JValue),
        dlookup hkvs "status" = some (.jstr s) →
        dlookup hkvs "homework_name" = some hnv →
        slookup HOMEWORK_VERDICTS s = none →
        parse_status (.jdict hkvs) = .error (.pyException ("Неожиданный статус - " ++ s)))
  ∧ (∀ (deliver : String → Except String Unit) (st : LoopState)
        (kvs hkvs : List (String × JValue)) (rest : List JValue) (s : String) (hnv : JValue),
        dlookup kvs "homeworks" = some (.jlist (.jdict hkvs :: rest)) →
        (dlookup kvs "current_date").isSome →
        dlookup hkvs "status" = some (.jstr s) →
        dlookup hkvs "homework_name" = some hnv →
        slookup HOMEWORK_VERDICTS s = none →
        JValue.jstr s ≠ st.old_status →
        pollCycle deliver (.ok (.jdict kvs)) st
          = ⟨st, ["Сбой в работе программы: " ++ ("Неожиданный статус - " ++ s)],
             send_message deliver
               ("Сбой в работе программы: " ++ ("Неожиданный статус - " ++ s))⟩) := by
  have hparse : ∀ (hkvs : List (String × JValue)) (s : String) (hnv : JValue),
      dlookup hkvs "status" = some (.jstr s) →
      dlookup hkvs "homework_name" = some hnv →
      slookup HOMEWORK_VERDICTS s = none →
      parse_status (.jdict hkvs) = .error (.pyException ("Неожиданный статус - " ++ s)) := by
    intro hkvs s hnv h1 h2 h3
    simp [parse_status, h1, h2, verdictFor, h3, pystr]
  refine ⟨hparse, ?_⟩
  intro d st kvs hkvs rest s hnv h1 h2 h3 h4 h5 h6
  obtain ⟨cd, hcd⟩ := Option.isSome_iff_exists.mp h2
  have hchk : check_response (.jdict kvs) = .ok (.jlist (.jdict hkvs :: rest)) := by
    simp [check_response, h1, hcd]
  have hst : dotGet (.jdict hkvs) "status" = .ok (.jstr s) := by
    simp [dotGet, h3]
  exact poll_parse_err d (.jdict kvs) (.jdict hkvs) rest st (.jstr s)
    (.pyException ("Неожиданный статус - " ++ s)) hchk hst h6 (hparse hkvs s hnv h3 h4 h5)

/-- C6 witness: a first homework with status `done` (not a verdict key)
makes the cycle send the failure report naming `done` and leave the state
unchanged. -/
theorem C6_witness :
    pollCycle (fun _ => .ok ())
      (.ok (.jdict
        [("homeworks", .jlist [.jdict
            [("status", .jstr "done"), ("homework_name", .jstr "hw1")]]),
         ("current_date", .jint 1600)]))
      ⟨.jint 1000, .jstr ""⟩
      = ⟨⟨.jint 1000, .jstr ""⟩,
         ["Сбой в работе программы: " ++ ("Неожиданный статус - " ++ "done")],
         [("DEBUG", "Бот отправил сообщение: "
           ++ ("Сбой в работе программы: " ++ ("Неожиданный статус - " ++ "done")))]⟩ :=
  C6_unknown_status_reported.2 (fun _ => .ok ()) ⟨.jint 1000, .jstr ""⟩
    _ _ _ "done" (.jstr "hw1") rfl rfl rfl rfl rfl (by decide)

/-- C7: for a record with both keys and a verdict-table status,
`parse_status` returns exactly
`Изменился статус проверки работы "<homework_name>". <verdict text>`; on
the spec's example record it returns the `reviewing` message, and running
that cycle from cursor 1000 and empty `old_status` with `current_date` 1600
ends with cursor 1600 and `old_status` `reviewing`. -/
theorem C7_parse_format_and_scenario :
    (∀ (hkvs : List (String × JValue)) (s name v : String),
        dlookup hkvs "status" = some (.jstr s) →
        dlookup hkvs "homework_name" = some (.jstr name) →
        slookup HOMEWORK_VERDICTS s = some v →
        parse_status (.jdict hkvs)
          = .ok ("Изменился статус проверки работы \x22" ++ name ++ "\x22. " ++ v))
  ∧ parse_status (.jdict [("status", .jstr "reviewing"), ("homework_name", .jstr "hw1")])
      = .ok "Изменился статус проверки работы \x22hw1\x22. Работа взята на проверку ревьюером."
  ∧ pollCycle (fun _ => .ok ())
      (.ok (.jdict
        [("homeworks", .jlist [.jdict
            [("status", .jstr "reviewing"), ("homework_name", .jstr "hw1")]]),
         ("current_date", .jint 1600)]))
      ⟨.jint 1000, .jstr ""⟩
      = ⟨⟨.jint 1600, .jstr "reviewing"⟩,
         ["Изменился статус проверки работы \x22hw1\x22. Работа взята на проверку ревьюером."],
         [("DEBUG", "Бот отправил сообщение: Изменился статус проверки работы \x22hw1\x22."
           ++ " Работа взята на проверку ревьюером.")]⟩ := by
  refine ⟨?_, by decide, by decide⟩
  intro hkvs s name v h1 h2 h3
  simp [parse_status, h1, h2, verdictFor, h3, pystr]

/-- C7 witness: the formatting clause applied to the record
`{status: rejected, homework_name: final-project}`. -/
theorem C7_witness :
    parse_status (.jdict
        [("homework_name", .jstr "final-project"), ("status", .jstr "rejected")])
      = .ok ("Изменился статус проверки работы \x22" ++ "final-project" ++ "\x22. "
          ++ "Работа проверена: у ревьюера есть замечания.") :=
  C7_parse_format_and_scenario.1 _ "rejected" "final-project" _ rfl rfl rfl

/-- C8: a non-200 HTTP status makes `get_api_answer` raise the exception
the spec labels `ServiceUnavailable`, whose message carries the numeric
status code and the response body text; the cycle reports that message
through the Notifier and the cursor (whole state) is unchanged. -/
theorem C8_non200_reported (code : Nat) (text : String)
    (deliver : String → Except String Unit) (st : LoopState) :
    get_api_answer st.timestamp (.badStatus code text)
      = .error (.pyException ("Эндпоинт " ++ ENDPOINT ++ " недоступен. Код ответа API: "
          ++ toString code ++ ".Ошибка: " ++ text))
    ∧ pollCycle deliver (.badStatus code text) st
      = ⟨st,
         ["Сбой в работе программы: "
           ++ ("Эндпоинт " ++ ENDPOINT ++ " недоступен. Код ответа API: "
               ++ toString code ++ ".Ошибка: " ++ text)],
         send_message deliver
           ("Сбой в работе программы: "
             ++ ("Эндпоинт " ++ ENDPOINT ++ " недоступен. Код ответа API: "
                 ++ toString code ++ ".Ошибка: " ++ text))⟩ :=
  ⟨rfl, poll_api_err deliver (.badStatus code text) st _ rfl⟩

/-- C9: the Notifier catches every delivery failure, logs it at error
severity, and returns normally; and the delivery outcome never influences
the state transition or the set of notifications of a cycle. -/
theorem C9_notifier_nonfatal :
    (∀ error message : String,
        send_message (fun _ => .error error) message
          = [("ERROR", "Сбой в отправке сообщения с ошибкой " ++ error)])
  ∧ (∀ (d1 d2 : String → Except String Unit) (http : HttpResult) (st : LoopState),
        (pollCycle d1 http st).state = (pollCycle d2 http st).state
        ∧ (pollCycle d1 http st).sent = (pollCycle d2 http st).sent) := by
  refine ⟨fun error message => rfl, fun d1 d2 http st => ?_⟩
  cases hapi : get_api_answer st.timestamp http with
  | error e => simp [pollCycle, hapi, reportFailure]
  | ok response =>
    cases hchk : check_response response with
    | error e => simp [pollCycle, hapi, hchk, reportFailure]
    | ok homeworks =>
      by_cases ht : truthy homeworks
      · cases hidx : jindex0 homeworks with
        | error e => simp [pollCycle, hapi, hchk, ht, hidx, reportFailure]
        | ok hw0 =>
          cases hst : dotGet hw0 "status" with
          | error e => simp [pollCycle, hapi, hchk, ht, hidx, hst, reportFailure]
          | ok ns =>
            by_cases hne : ns = st.old_status
            · cases hcd : dotGet response "current_date" with
              | error e => simp [pollCycle, hapi, hchk, ht, hidx, hst, hne, hcd, reportFailure]
              | ok ts => simp [pollCycle, hapi, hchk, ht, hidx, hst, hne, hcd]
            · cases hp : parse_status hw0 with
              | error e =>
                  simp [pollCycle, hapi, hchk, ht, hidx, hst, hne, hp, reportFailure]
              | ok msg =>
                  cases hcd : dotGet response "current_date" with
                  | error e => simp [pollCycle, hapi, hchk, ht, hidx, hst, hne, hp, hcd]
                  | ok ts => simp [pollCycle, hapi, hchk, ht, hidx, hst, hne, hp, hcd]
      · cases hcd : dotGet response "current_date" with
        | error e => simp [pollCycle, hapi, hchk, ht, hcd, reportFailure]
        | ok ts => simp [pollCycle, hapi, hchk, ht, hcd]

/-- C2 (evaluated at the failing input): with `PRACTICUM_TOKEN` and
`CHAT_ID` set but `TELEGRAM_TOKEN` unset, `check_tokens` emits no critical
log and does not exit (first conjunct), because its loop inspects
`TELEGRAM_CHAT_ID, PRACTICUM_TOKEN, TELEGRAM_CHAT_ID` and never
`TELEGRAM_TOKEN`; and credentials set to the empty string also pass, since
only `is None` is tested (second conjunct).  Both contradict the claimed
startup precondition. -/
theorem C2_startup_check_gaps :
    check_tokens ⟨some "practicum-token", none, some "chat-id"⟩ = (false, [])
    ∧ check_tokens ⟨some "", some "", some ""⟩ = (false, []) :=
  ⟨rfl, rfl⟩

/-- C10: `old_status` starts as the empty string and, after any cycle, is
either still the empty string or a key of the verdict table: it is only
ever assigned the status value of a record on which `parse_status` just
succeeded. -/
theorem C10_old_status_invariant :
    (∀ now : Int, statusInv (initState now))
  ∧ (∀ (deliver : String → Except String Unit) (http : HttpResult) (st : LoopState),
        statusInv st → statusInv (pollCycle deliver http st).state) := by
  refine ⟨fun _ => Or.inl rfl, fun deliver http st hInv => ?_⟩
  cases hapi : get_api_answer st.timestamp http with
  | error e => simpa [pollCycle, hapi, reportFailure] using hInv
  | ok response =>
    cases hchk : check_response response with
    | error e => simpa [pollCycle, hapi, hchk, reportFailure] using hInv
    | ok homeworks =>
      by_cases ht : truthy homeworks
      · cases hidx : jindex0 homeworks with
        | error e => simpa [pollCycle, hapi, hchk, ht, hidx, reportFailure] using hInv
        | ok hw0 =>
          cases hst : dotGet hw0 "status" with
          | error e => simpa [pollCycle, hapi, hchk, ht, hidx, hst, reportFailure] using hInv
          | ok ns =>
            by_cases hne : ns = st.old_status
            · cases hcd : dotGet response "current_date" with
              | error e =>
                  simpa [pollCycle, hapi, hchk, ht, hidx, hst, hne, hcd, reportFailure]
                    using hInv
              | ok ts =>
                  simp only [pollCycle, hapi, hchk, ht, if_true, hidx, hst, hne, hcd]
                  simpa [statusInv] using hInv
            · cases hp : parse_status hw0 with
              | error e =>
                  simpa [pollCycle, hapi, hchk, ht, hidx, hst, hne, hp, reportFailure]
                    using hInv
              | ok msg =>
                  obtain ⟨s, hns, hsv⟩ := parse_ok_gives_verdict hw0 ns msg hp hst
                  cases hcd : dotGet response "current_date" with
                  | error e =>
                      simp [pollCycle, hapi, hchk, ht, hidx, hst, hne, hp, hcd]
                      exact Or.inr ⟨s, hns, hsv⟩
                  | ok ts =>
                      simp [pollCycle, hapi, hchk, ht, hidx, hst, hne, hp, hcd]
                      exact Or.inr ⟨s, hns, hsv⟩
      · cases hcd : dotGet response "current_date" with
        | error e => simpa [pollCycle, hapi, hchk, ht, hcd, reportFailure] using hInv
        | ok ts =>
            simp only [pollCycle, hapi, hchk, ht, if_false, hcd]
            simpa [statusInv] using hInv

/-- C10 witness: one cycle on the C7 scenario response from the initial
state keeps the invariant (the new `old_status` is the verdict key
`reviewing`). -/
theorem C10_witness :
    statusInv (pollCycle (fun _ => .ok ())
      (.ok (.jdict
        [("homeworks", .jlist [.jdict
            [("status", .jstr "reviewing"), ("homework_name", .jstr "hw1")]]),
         ("current_date", .jint 1600)]))
      (initState 1000)).state :=
  C10_old_status_invariant.2 (fun _ => .ok ()) _ (initState 1000)
    (C10_old_status_invariant.1 1000)

end Homework
